import Mathlib

/-!
Verification of the path-resolution and file-open engine of
`src/xenia/vfs/virtual_file_system.cc` (class `VirtualFileSystem`).

Guest paths are modelled as `List Char` (byte/character sequences).  The
external string utilities `xe::utf8::starts_with_case`, `starts_with` and
`equal_case` are modelled as character-wise comparison, case-insensitively
via `Char.toLower` where the utility is the case-folding one.
-/

namespace XeniaVfs

/-- Case folding used to model the case-insensitive `xe::utf8` helpers. -/
def charLower (c : Char) : Char := c.toLower

/-- Model of `xe::utf8::starts_with_case path pre`: `pre` is a
case-insensitive prefix of `path`. -/
def startsWithCase (path pre : List Char) : Bool :=
  (pre.map charLower).isPrefixOf (path.map charLower)

/-- Model of `xe::utf8::equal_case`: case-insensitive equality. -/
def equalCase (a b : List Char) : Bool :=
  a.map charLower == b.map charLower

/-- Modelled from the spec: the symlink container is declared in
`virtual_file_system.h`, which is not among the provided sources; per §3 of
the spec the table holds (source-prefix, target-prefix) pairs kept in
registration order. -/
abbrev SymlinkTable := List (List Char × List Char)

/-- Model of `VirtualFileSystem::FindSymbolicLink`: first table entry whose
source prefix case-insensitively matches the start of `path`
(`std::find_if` with `starts_with_case`). -/
def findSymbolicLink (table : SymlinkTable) (path : List Char) :
    Option (List Char × List Char) :=
  table.find? (fun s => startsWithCase path s.1)

/-- The `while (true)` loop of `VirtualFileSystem::ResolveSymbolicLink`,
with explicit fuel standing for the number of loop iterations the caller
is willing to run (`none` = the source loop would still be running, since
the source has no cycle guard).  On a match `(src, tgt)` the code does
`result = target_path + result.substr(src.size())` and records that a
rewrite happened. -/
def resolveSymbolicLinkLoop (table : SymlinkTable) :
    Nat → List Char → Bool → Option (Bool × List Char)
  | 0, _, _ => none
  | fuel + 1, result, was =>
    match findSymbolicLink table result with
    | none => some (was, result)
    | some s => resolveSymbolicLinkLoop table fuel (s.2 ++ result.drop s.1.length) true

/-- Model of `VirtualFileSystem::ResolveSymbolicLink(path, result)`:
returns `(was_resolved, result)`, with fuel as in
`resolveSymbolicLinkLoop`. -/
def resolveSymbolicLink (table : SymlinkTable) (fuel : Nat) (path : List Char) :
    Option (Bool × List Char) :=
  resolveSymbolicLinkLoop table fuel path false

/-- Once a rewrite has happened, the loop can only report `was_resolved = true`. -/
theorem resolveSymbolicLinkLoop_true (table : SymlinkTable) :
    ∀ (fuel : Nat) (r : List Char) (b : Bool) (q : List Char),
      resolveSymbolicLinkLoop table fuel r true = some (b, q) → b = true := by
  intro fuel
  induction fuel with
  | zero => intro r b q h; simp [resolveSymbolicLinkLoop] at h
  | succ n ih =>
    intro r b q h
    simp only [resolveSymbolicLinkLoop] at h
    cases hf : findSymbolicLink table r with
    | none => rw [hf] at h; simp at h; exact h.1
    | some s => rw [hf] at h; exact ih _ b q h

theorem startsWithCase_append_self (x t : List Char) :
    startsWithCase (x ++ t) x = true := by
  simp [startsWithCase, List.isPrefixOf_iff_prefix]

theorem isPrefixOf_cons_cons (a b : Char) (u v : List Char) :
    (a :: u).isPrefixOf (b :: v) = (a == b && u.isPrefixOf v) := rfl

/-- A case-folded head-character mismatch rules out a case-insensitive
prefix match, whatever follows. -/
theorem startsWithCase_ne_head (cx cy : Char) (x y t : List Char)
    (h : (charLower cx == charLower cy) = false) :
    startsWithCase ((cy :: y) ++ t) (cx :: x) = false := by
  simp only [startsWithCase, List.cons_append, List.map_cons, List.map_append,
    isPrefixOf_cons_cons, h, Bool.false_and]

/-- One unrolling of the resolution loop. -/
theorem resolveSymbolicLinkLoop_succ (table : SymlinkTable) (fuel : Nat)
    (r : List Char) (was : Bool) :
    resolveSymbolicLinkLoop table (Nat.succ fuel) r was =
      match findSymbolicLink table r with
      | none => some (was, r)
      | some s => resolveSymbolicLinkLoop table fuel (s.2 ++ r.drop s.1.length) true := rfl

/-- C2: `ResolveSymbolicLink` repeatedly finds the first table entry whose
source prefix matches the start of the current path, replaces the matched
prefix with its target keeping the unmatched suffix, and loops until no
further match is found; it returns true iff at least one rewrite occurred
(so a path with no matching source prefix is left unchanged with result
false), and for a non-cyclic chain A→B, B→C every path prefixed by A
resolves to the same path re-prefixed by C. -/
theorem resolveSymbolicLink_spec :
    (∀ (table : SymlinkTable) (fuel : Nat) (p : List Char),
       findSymbolicLink table p = none →
       resolveSymbolicLink table (fuel + 1) p = some (false, p))
    ∧ (∀ (table : SymlinkTable) (fuel : Nat) (p q : List Char) (b : Bool),
       resolveSymbolicLink table (fuel + 1) p = some (b, q) →
       (b = false ↔ findSymbolicLink table p = none) ∧ (b = false → q = p))
    ∧ (∀ (A B C s : List Char) (fuel : Nat),
       (∀ t, startsWithCase (B ++ t) A = false) →
       (∀ t, startsWithCase (C ++ t) A = false) →
       (∀ t, startsWithCase (C ++ t) B = false) →
       resolveSymbolicLink [(A, B), (B, C)] (fuel + 3) (A ++ s) = some (true, C ++ s)) := by
  refine ⟨?_, ?_, ?_⟩
  · intro table fuel p hf
    simp [resolveSymbolicLink, resolveSymbolicLinkLoop, hf]
  · intro table fuel p q b h
    rw [resolveSymbolicLink] at h
    cases hf : findSymbolicLink table p with
    | none =>
      simp only [resolveSymbolicLinkLoop, hf, Option.some.injEq, Prod.mk.injEq] at h
      obtain ⟨hb, hq⟩ := h
      subst hb; subst hq
      simp [hf]
    | some s =>
      simp only [resolveSymbolicLinkLoop, hf] at h
      have hb := resolveSymbolicLinkLoop_true table fuel _ b q h
      subst hb
      simp [hf]
  · intro A B C s fuel h1 h2 h3
    have e1 : findSymbolicLink [(A, B), (B, C)] (A ++ s) = some (A, B) :=
      List.find?_cons_of_pos _ (startsWithCase_append_self A s)
    have e2 : findSymbolicLink [(A, B), (B, C)] (B ++ s) = some (B, C) := by
      rw [findSymbolicLink, List.find?_cons_of_neg, List.find?_cons_of_pos]
      · exact startsWithCase_append_self B s
      · simp [h1 s]
    have e3 : findSymbolicLink [(A, B), (B, C)] (C ++ s) = none := by
      rw [findSymbolicLink, List.find?_cons_of_neg, List.find?_cons_of_neg]
      · rfl
      · simp [h3 s]
      · simp [h2 s]
    have d1 : (A ++ s).drop A.length = s := List.drop_left A s
    have d2 : (B ++ s).drop B.length = s := List.drop_left B s
    show resolveSymbolicLinkLoop [(A, B), (B, C)] (Nat.succ (Nat.succ (Nat.succ fuel)))
      (A ++ s) false = some (true, C ++ s)
    simp only [resolveSymbolicLinkLoop_succ, e1, e2, e3, d1, d2]

/-- Witness for C2 at concrete inputs. -/
theorem resolveSymbolicLink_spec_witness :
    resolveSymbolicLink [] 1 ['x'] = some (false, ['x'])
    ∧ (false = false ↔ findSymbolicLink [] ['x'] = none)
    ∧ resolveSymbolicLink [(['a'], ['b']), (['b'], ['c'])] 3 ['a', '/'] =
        some (true, ['c', '/']) := by
  refine ⟨?_, ?_, ?_⟩
  · exact resolveSymbolicLink_spec.1 [] 0 ['x'] rfl
  · exact (resolveSymbolicLink_spec.2.1 [] 0 ['x'] ['x'] false
      (resolveSymbolicLink_spec.1 [] 0 ['x'] rfl)).1
  · exact resolveSymbolicLink_spec.2.2 ['a'] ['b'] ['c'] ['/'] 0
      (fun t => startsWithCase_ne_head 'a' 'b' [] [] t (by decide))
      (fun t => startsWithCase_ne_head 'a' 'c' [] [] t (by decide))
      (fun t => startsWithCase_ne_head 'b' 'c' [] [] t (by decide))

/-- Modelled from the spec: the device registry container is declared in
`virtual_file_system.h`, which is not among the provided sources; per §3/§4.1
of the spec it is an ordered collection kept in registration order.  Only the
mount path of a device is relevant to the routing and unregistration code. -/
structure Device where
  mountPath : List Char
deriving DecidableEq

/-- Model of `VirtualFileSystem::UnregisterDevice`: walk the registry in
order and erase the first device whose `mount_path()` compares `==` (plain,
case-sensitive `std::string` equality) to the argument, returning whether
one was erased, paired with the registry left behind. -/
def unregisterDevice : List Device → List Char → Bool × List Device
  | [], _ => (false, [])
  | d :: rest, path =>
    if d.mountPath = path then (true, rest)
    else
      let r := unregisterDevice rest path
      (r.1, d :: r.2)

/-- Model of the routing part of `VirtualFileSystem::ResolvePath`.  The
canonicalizer `xe::utf8::canonicalize_guest_path` is an external string
utility (spec §4.3 step 1) and is taken as a parameter.  The path is
canonicalized, rewritten through the symlink table (the rewritten form is
used only when a rewrite occurred), and matched against the registry with
`std::find_if` + `xe::utf8::starts_with` (case-sensitive literal prefix).
The outer `none` means the symlink loop was still running after `fuel`
iterations; `some none` is the `DeviceNotFound` null result; on success the
chosen device is returned with the path remainder after its mount path,
which the source hands to `device->ResolvePath` (an external collaborator). -/
def resolvePathRoute (canon : List Char → List Char) (table : SymlinkTable)
    (fuel : Nat) (devices : List Device) (path : List Char) :
    Option (Option (Device × List Char)) :=
  let normalized := canon path
  match resolveSymbolicLink table fuel normalized with
  | none => none
  | some r =>
    let finalPath := if r.1 then r.2 else normalized
    match devices.find? (fun d => d.mountPath.isPrefixOf finalPath) with
    | none => some none
    | some d => some (some (d, finalPath.drop d.mountPath.length))

/-- C3: after canonicalizing and symlink-resolving the input, `ResolvePath`
selects the first device in registration order whose mount path is a
literal prefix of the resolved path — even when a later device's mount path
is also a prefix, longer or not — and when no device's mount path prefixes
the resolved path it fails with the `DeviceNotFound` null result. -/
theorem resolvePath_first_device (canon : List Char → List Char)
    (table : SymlinkTable) (fuel : Nat) (path : List Char)
    (res : Bool) (rew : List Char)
    (hsym : resolveSymbolicLink table fuel (canon path) = some (res, rew)) :
    ((∀ (pre post : List Device) (d : Device),
       (∀ d' ∈ pre, d'.mountPath.isPrefixOf (if res then rew else canon path) = false) →
       d.mountPath.isPrefixOf (if res then rew else canon path) = true →
       resolvePathRoute canon table fuel (pre ++ d :: post) path =
         some (some (d, (if res then rew else canon path).drop d.mountPath.length)))
     ∧ (∀ devices : List Device,
       (∀ d ∈ devices, d.mountPath.isPrefixOf (if res then rew else canon path) = false) →
       resolvePathRoute canon table fuel devices path = some none)) := by
  constructor
  · intro pre post d hpre hd
    rw [resolvePathRoute]
    rw [hsym]
    have hfind : (pre ++ d :: post).find?
        (fun d' => d'.mountPath.isPrefixOf (if res then rew else canon path)) = some d := by
      induction pre with
      | nil => exact List.find?_cons_of_pos _ hd
      | cons a as ih =>
        rw [List.cons_append, List.find?_cons_of_neg]
        · exact ih (fun d' hmem => hpre d' (List.mem_cons.mpr (Or.inr hmem)))
        · simp [hpre a (List.mem_cons_self a as)]
    simp only [hfind]
  · intro devices hnone
    rw [resolvePathRoute]
    rw [hsym]
    have hfind : devices.find?
        (fun d' => d'.mountPath.isPrefixOf (if res then rew else canon path)) = none := by
      rw [List.find?_eq_none]
      intro d hmem
      simp [hnone d hmem]
    simp only [hfind]

/-- Witness for C3: two devices whose mount paths both prefix the path,
the first registered has the shorter mount path and still wins; and a
registry with no matching device yields the null result. -/
theorem resolvePath_first_device_witness :
    resolvePathRoute id [] 1 [⟨['g']⟩, ⟨['g', ':']⟩] ['g', ':', '/'] =
      some (some (⟨['g']⟩, [':', '/']))
    ∧ resolvePathRoute id [] 1 [⟨['d', ':']⟩] ['g', ':', '/'] = some none := by
  have hsym : resolveSymbolicLink [] 1 (id ['g', ':', '/']) = some (false, ['g', ':', '/']) :=
    rfl
  constructor
  · exact (resolvePath_first_device id [] 1 ['g', ':', '/'] false ['g', ':', '/'] hsym).1
      [] [⟨['g', ':']⟩] ⟨['g']⟩ (by intro d' h; cases h) (by decide)
  · exact (resolvePath_first_device id [] 1 ['g', ':', '/'] false ['g', ':', '/'] hsym).2
      [⟨['d', ':']⟩] (by intro d' h; simp at h; subst h; decide)

/-- C7 counterexample: `UnregisterDevice` compares mount paths with plain
`==`, so a device mounted at `G:` is NOT removed by unregistering `g:`,
although the two paths are case-insensitively equal. -/
theorem unregisterDevice_case_cex :
    equalCase (['G', ':']) (['g', ':']) = true
    ∧ unregisterDevice [⟨['G', ':']⟩] (['g', ':']) = (false, [⟨['G', ':']⟩]) := by
  constructor
  · decide
  · decide

/-- C7 amended: `UnregisterDevice` removes the first registered device whose
mount path case-SENSITIVELY equals the argument and returns true; if no
device's mount path exactly equals the argument it removes nothing and
returns false. -/
theorem unregisterDevice_exact_match (path : List Char) :
    ((∀ devices : List Device, (∀ d ∈ devices, d.mountPath ≠ path) →
       unregisterDevice devices path = (false, devices))
     ∧ (∀ (pre post : List Device) (d : Device),
       (∀ d' ∈ pre, d'.mountPath ≠ path) → d.mountPath = path →
       unregisterDevice (pre ++ d :: post) path = (true, pre ++ post))) := by
  constructor
  · intro devices hne
    induction devices with
    | nil => rfl
    | cons a as ih =>
      rw [unregisterDevice]
      rw [if_neg (hne a (List.mem_cons_self a as))]
      simp only [ih (fun d hmem => hne d (List.mem_cons.mpr (Or.inr hmem)))]
  · intro pre post d hpre hd
    induction pre with
    | nil =>
      rw [List.nil_append, unregisterDevice, if_pos hd]
      rfl
    | cons a as ih =>
      rw [List.cons_append, unregisterDevice]
      rw [if_neg (hpre a (List.mem_cons_self a as))]
      simp only [ih (fun d' hmem => hpre d' (List.mem_cons.mpr (Or.inr hmem))), List.cons_append]

/-- Witness for C7's amended theorem at concrete inputs. -/
theorem unregisterDevice_exact_match_witness :
    unregisterDevice [⟨['G', ':']⟩] (['c', ':']) = (false, [⟨['G', ':']⟩])
    ∧ unregisterDevice [⟨['d', ':']⟩, ⟨['c', ':']⟩, ⟨['c', ':']⟩] (['c', ':']) =
        (true, [⟨['d', ':']⟩, ⟨['c', ':']⟩]) := by
  constructor
  · exact (unregisterDevice_exact_match (['c', ':'])).1 [⟨['G', ':']⟩]
      (by intro d h; simp at h; subst h; decide)
  · exact (unregisterDevice_exact_match (['c', ':'])).2 [⟨['d', ':']⟩] [⟨['c', ':']⟩]
      ⟨['c', ':']⟩ (by intro d h; simp at h; subst h; decide) rfl

/-- `kFileAttributeNormal` from the VFS file attribute flags. -/
def kFileAttributeNormal : Nat := 0x80

/-- `kFileAttributeDirectory` from the VFS file attribute flags. -/
def kFileAttributeDirectory : Nat := 0x10

/-- The `for (size_t i = 1; ...)` walk of `VirtualFileSystem::CreatePath`,
over an abstract entry type `E` (entries are produced by devices, external
collaborators).  `resolve` models a global `ResolvePath` call on a partial
path, represented as its list of segments (the source resolves the string
produced by `xe::utf8::join_guest_paths`, an external utility);
`createEntry` models `parent->CreateEntry(name, attributes)`.  The
remaining segments are carried as head `seg` plus tail, so the last segment
(empty tail) is created with the caller-supplied attributes while every
earlier segment is resolved or created as a directory. -/
def createPathLoop {E : Type} (resolve : List (List Char) → Option E)
    (createEntry : E → List Char → Nat → Option E) (attributes : Nat) :
    List (List Char) → E → List Char → List (List Char) → Option E
  | _, parent, seg, [] => createEntry parent seg attributes
  | partialSegs, parent, seg, r0 :: rs =>
    let partial2 := partialSegs ++ [seg]
    let child :=
      match resolve partial2 with
      | some c => some c
      | none => createEntry parent seg kFileAttributeDirectory
    match child with
    | none => none
    | some c => createPathLoop resolve createEntry attributes partial2 c r0 rs

/-- Model of `VirtualFileSystem::CreatePath(path, attributes)`: split the
path into segments (`xe::utf8::split_path`, external — the split result is
taken as input), fail on an empty split or when the first segment does not
resolve, then walk the rest with `createPathLoop`.  When the path has a
single segment the source creates that very segment under its own resolved
entry. -/
def createPath {E : Type} (resolve : List (List Char) → Option E)
    (createEntry : E → List Char → Nat → Option E)
    (parts : List (List Char)) (attributes : Nat) : Option E :=
  match parts with
  | [] => none
  | p0 :: rest =>
    match resolve [p0] with
    | none => none
    | some e0 =>
      match rest with
      | [] => createEntry e0 p0 attributes
      | r0 :: rs => createPathLoop resolve createEntry attributes [p0] e0 r0 rs

/-- C8: `CreatePath` fails (null) when the path has no segments or when the
first segment does not resolve; each remaining segment except the last is
resolved and, when it does not resolve, created as a directory under the
current parent (failing with null when that creation is refused); the last
segment is created under the current parent with the caller-supplied
attributes. -/
theorem createPath_spec {E : Type} (resolve : List (List Char) → Option E)
    (ce : E → List Char → Nat → Option E) (attrs : Nat) :
    (createPath resolve ce [] attrs = none)
    ∧ (∀ (p0 : List Char) (rest : List (List Char)), resolve [p0] = none →
        createPath resolve ce (p0 :: rest) attrs = none)
    ∧ (∀ (p0 : List Char) (e0 : E), resolve [p0] = some e0 →
        createPath resolve ce [p0] attrs = ce e0 p0 attrs)
    ∧ (∀ (p0 : List Char) (e0 : E) (r0 : List Char) (rs : List (List Char)),
        resolve [p0] = some e0 →
        createPath resolve ce (p0 :: r0 :: rs) attrs =
          createPathLoop resolve ce attrs [p0] e0 r0 rs)
    ∧ (∀ (pfx : List (List Char)) (parent : E) (last : List Char),
        createPathLoop resolve ce attrs pfx parent last [] = ce parent last attrs)
    ∧ (∀ (pfx : List (List Char)) (parent : E) (seg r0 : List Char)
        (rs : List (List Char)) (c : E), resolve (pfx ++ [seg]) = some c →
        createPathLoop resolve ce attrs pfx parent seg (r0 :: rs) =
          createPathLoop resolve ce attrs (pfx ++ [seg]) c r0 rs)
    ∧ (∀ (pfx : List (List Char)) (parent : E) (seg r0 : List Char)
        (rs : List (List Char)) (c : E), resolve (pfx ++ [seg]) = none →
        ce parent seg kFileAttributeDirectory = some c →
        createPathLoop resolve ce attrs pfx parent seg (r0 :: rs) =
          createPathLoop resolve ce attrs (pfx ++ [seg]) c r0 rs)
    ∧ (∀ (pfx : List (List Char)) (parent : E) (seg r0 : List Char)
        (rs : List (List Char)), resolve (pfx ++ [seg]) = none →
        ce parent seg kFileAttributeDirectory = none →
        createPathLoop resolve ce attrs pfx parent seg (r0 :: rs) = none) := by
  refine ⟨rfl, ?_, ?_, ?_, ?_, ?_, ?_, ?_⟩
  · intro p0 rest h
    simp only [createPath, h]
  · intro p0 e0 h
    simp only [createPath, h]
  · intro p0 e0 r0 rs h
    simp only [createPath, h]
  · intro pfx parent last
    rfl
  · intro pfx parent seg r0 rs c h
    simp only [createPathLoop, h]
  · intro pfx parent seg r0 rs c hres hce
    simp only [createPathLoop, hres, hce]
  · intro pfx parent seg r0 rs hres hce
    simp only [createPathLoop, hres, hce]

/-- Concrete three-segment namespace for the C8 witness: entry 0 is the
resolved root mount, entry 1 the directory created for the missing middle
segment, entry 2 the final leaf. -/
def c8Resolve : List (List Char) → Option Nat :=
  fun segs => if segs = [['g']] then some 0 else none

/-- Concrete `CreateEntry` behaviour for the C8 witness. -/
def c8Create : Nat → List Char → Nat → Option Nat :=
  fun parent name attrs =>
    if parent = 0 ∧ name = ['s'] ∧ attrs = kFileAttributeDirectory then some 1
    else if parent = 1 ∧ name = ['f'] ∧ attrs = 7 then some 2
    else none

/-- Witness for C8: `g/s/f` with `g` mounted, `s` absent (created as a
directory) and `f` created with the caller-supplied attributes. -/
theorem createPath_spec_witness :
    createPath c8Resolve c8Create [['g'], ['s'], ['f']] 7 = some 2 := by
  have h := createPath_spec c8Resolve c8Create 7
  rw [h.2.2.2.1 (['g']) 0 (['s']) [(['f'])] (by decide)]
  rw [h.2.2.2.2.2.2.1 [(['g'])] 0 (['s']) (['f']) [] 1 (by decide) (by decide)]
  rw [h.2.2.2.2.1 ([(['g'])] ++ [(['s'])]) 1 (['f'])]
  decide

/-- NT-style statuses returned by `OpenFile` and the extraction walker.
`deviceError` stands for any other failing status produced by an external
device or the host filesystem. -/
inductive XStatus
  | success
  | noSuchFile
  | objectNameCollision
  | fileIsADirectory
  | accessDenied
  | deviceError
deriving DecidableEq

/-- `XFAILED` on the modelled statuses: every non-success status fails. -/
def XStatus.failed : XStatus → Bool
  | .success => false
  | _ => true

/-- `FileDisposition` (note the source spells `kSuperscede`). -/
inductive FileDisposition
  | kSuperscede
  | kOpen
  | kCreate
  | kOpenIf
  | kOverwrite
  | kOverwriteIf
deriving DecidableEq

/-- `FileAction` reported through `out_action`. -/
inductive FileAction
  | kSuperseded
  | kOpened
  | kCreated
  | kOverwritten
  | kExists
  | kDoesNotExist
deriving DecidableEq

/-- The access-mask bits `OpenFile` inspects, one Boolean per flag of
`FileAccess` (the numeric bit values live in a header that only the flag
names matter from). -/
structure FileAccess where
  genericRead : Bool
  genericWrite : Bool
  genericAll : Bool
  fileReadData : Bool
  fileWriteData : Bool
  fileAppendData : Bool
deriving DecidableEq

/-- The "Cleanup access" step at the top of `OpenFile`: generic-read adds
read-data, generic-write adds write-data, generic-all adds both. -/
def normalizeAccess (a : FileAccess) : FileAccess :=
  let a1 := if a.genericRead then { a with fileReadData := true } else a
  let a2 := if a1.genericWrite then { a1 with fileWriteData := true } else a1
  if a2.genericAll then { a2 with fileReadData := true, fileWriteData := true } else a2

/-- The access mask `OpenFile` downgrades to on a read-only hit:
`FileAccess::kGenericRead | FileAccess::kFileReadData`. -/
def readOnlyAccess : FileAccess :=
  ⟨true, false, false, true, false, false⟩

/-- Results of the external calls `OpenFile` makes, one field per call
site: path lookup (`find_base_guest_path` emptiness, parent resolution,
child/entry lookup), the stale-cache probe (is the parent a
`HostPathEntry`, and does the host file still exist), the read-only flags,
and the outcomes of `entry->Delete()`, `CreatePath` and `entry->Open`. -/
structure OpenFileEnv where
  hasBasePath : Bool
  parentResolves : Bool
  entryFound : Bool
  entryIsDirectory : Bool
  parentIsHostPath : Bool
  hostFileExists : Bool
  parentReadOnly : Bool
  entryReadOnly : Bool
  deleteSucceeds : Bool
  createSucceeds : Bool
  openStatus : XStatus
deriving DecidableEq

/-- The stale-cache self-heal fires when an entry was found under a
resolved parent that is a `HostPathEntry` whose backing file is gone; the
cached entry is then `Delete()`d and treated as absent. -/
def OpenFileEnv.healed (env : OpenFileEnv) : Bool :=
  env.entryFound && env.hasBasePath && env.parentIsHostPath && !env.hostFileExists

/-- Whether the entry is (still) present when the disposition switch runs. -/
def OpenFileEnv.entryPresent (env : OpenFileEnv) : Bool :=
  env.entryFound && !env.healed

/-- What a call to `OpenFile` did: the returned status, the value written
to `*out_action` (`none` = never written), whether `*out_file` holds an
open handle, the access mask passed to `entry->Open` (`none` = never
reached), and the structural effects on the namespace: the stale-cache
delete, the disposition-driven delete of the existing entry, and the
creation of a (new or replacement) entry via `CreatePath`. -/
structure OpenFileResult where
  status : XStatus
  action : Option FileAction
  gotFile : Bool
  finalAccess : Option FileAccess
  healDeleted : Bool
  deletedExisting : Bool
  createdNew : Bool
  createAttrs : Option Nat
deriving DecidableEq

/-- The tail of `OpenFile`: `entry->Open(desired_access, out_file)`; on a
failing status the code overwrites `*out_action` with `kDoesNotExist` and
propagates the status. -/
def finishOpen (acc : FileAccess) (act : FileAction) (heal del cre : Bool)
    (cattrs : Option Nat) (openStatus : XStatus) : OpenFileResult :=
  if openStatus.failed then
    ⟨openStatus, some FileAction.kDoesNotExist, false, some acc, heal, del, cre, cattrs⟩
  else
    ⟨openStatus, some act, true, some acc, heal, del, cre, cattrs⟩

/-- Model of `VirtualFileSystem::OpenFile`, branch for branch: access
cleanup; parent/entry lookup (failure to resolve a non-empty parent
portion is `NO_SUCH_FILE` with action `kDoesNotExist`); the
directory-vs-`is_non_directory` check (which returns without writing
`*out_action`); the stale-cache self-heal; the disposition precondition
switch; the read-only write-downgrade; the action-resolution switch with
its delete + recreate paths; `CreatePath` when no entry is left; and the
final `entry->Open`. -/
def openFile (env : OpenFileEnv) (disp : FileDisposition) (access : FileAccess)
    (is_directory is_non_directory : Bool) : OpenFileResult :=
  let acc := normalizeAccess access
  if env.hasBasePath && !env.parentResolves then
    ⟨XStatus.noSuchFile, some FileAction.kDoesNotExist, false, none, false, false, false, none⟩
  else if env.entryFound && env.entryIsDirectory && is_non_directory then
    ⟨XStatus.fileIsADirectory, none, false, none, false, false, false, none⟩
  else
    let heal := env.healed
    let entry := env.entryPresent
    let precheck : Option OpenFileResult :=
      match disp with
      | .kOpen | .kOverwrite =>
        if !entry then
          some ⟨XStatus.noSuchFile, some FileAction.kDoesNotExist, false, none, heal,
            false, false, none⟩
        else none
      | .kCreate =>
        if entry then
          some ⟨XStatus.objectNameCollision, some FileAction.kExists, false, none, heal,
            false, false, none⟩
        else none
      | _ => none
    match precheck with
    | some r => r
    | none =>
      let wantsWrite := acc.fileWriteData || acc.fileAppendData
      let acc2 :=
        if wantsWrite && ((env.hasBasePath && env.parentReadOnly) ||
            (entry && env.entryReadOnly)) then
          readOnlyAccess
        else acc
      let cattrs := if is_directory then kFileAttributeDirectory else kFileAttributeNormal
      if !entry then
        if env.createSucceeds then
          finishOpen acc2 FileAction.kCreated heal false true (some cattrs) env.openStatus
        else
          ⟨XStatus.accessDenied, some FileAction.kCreated, false, none, heal, false, false,
            some cattrs⟩
      else
        match disp with
        | .kCreate =>
          ⟨XStatus.accessDenied, none, false, none, heal, false, false, none⟩
        | .kSuperscede =>
          if !env.deleteSucceeds then
            ⟨XStatus.accessDenied, none, false, none, heal, false, false, none⟩
          else if env.createSucceeds then
            finishOpen acc2 FileAction.kSuperseded heal true true (some cattrs) env.openStatus
          else
            ⟨XStatus.accessDenied, some FileAction.kSuperseded, false, none, heal, true, false,
              some cattrs⟩
        | .kOpen | .kOpenIf =>
          finishOpen acc2 FileAction.kOpened heal false false none env.openStatus
        | .kOverwrite | .kOverwriteIf =>
          if !env.deleteSucceeds then
            ⟨XStatus.accessDenied, none, false, none, heal, false, false, none⟩
          else if env.createSucceeds then
            finishOpen acc2 FileAction.kOverwritten heal true true (some cattrs) env.openStatus
          else
            ⟨XStatus.accessDenied, some FileAction.kOverwritten, false, none, heal, true, false,
              some cattrs⟩
theorem finishOpen_status (acc : FileAccess) (act : FileAction) (heal del cre : Bool)
    (cattrs : Option Nat) (st : XStatus) :
    (finishOpen acc act heal del cre cattrs st).status = st := by
  rw [finishOpen]; split <;> rfl

theorem finishOpen_finalAccess (acc : FileAccess) (act : FileAction) (heal del cre : Bool)
    (cattrs : Option Nat) (st : XStatus) :
    (finishOpen acc act heal del cre cattrs st).finalAccess = some acc := by
  rw [finishOpen]; split <;> rfl

/-- C1: the (action, success/failure) outcome of `OpenFile` matches the
disposition-by-existence table: `Open`/`Overwrite` with the entry absent
fail `NO_SUCH_FILE` reporting `kDoesNotExist`; `Create` with the entry
present fails `OBJECT_NAME_COLLISION` reporting `kExists`; entry absent
with any other disposition reports `kCreated`; entry present with
`Open`/`OpenIf` succeeds reporting `kOpened` with no structural change;
entry present with `Overwrite`/`OverwriteIf` deletes the existing entry
(`ACCESS_DENIED` when the delete is refused) and recreates it, reporting
`kOverwritten`; entry present with `Superscede` deletes and recreates,
reporting `kSuperseded`.  Stated for calls that pass the lookup and the
directory-hint check, with a cooperating device (`CreatePath` and
`entry->Open` succeed). -/
theorem openFile_disposition_table (env : OpenFileEnv) (acc : FileAccess)
    (idir indir : Bool)
    (hparent : (env.hasBasePath && !env.parentResolves) = false)
    (hdir : (env.entryFound && env.entryIsDirectory && indir) = false)
    (hcre : env.createSucceeds = true)
    (hopen : env.openStatus = XStatus.success) :
    ((env.entryPresent = false → ∀ disp,
        (disp = FileDisposition.kOpen ∨ disp = FileDisposition.kOverwrite) →
        openFile env disp acc idir indir =
          ⟨XStatus.noSuchFile, some FileAction.kDoesNotExist, false, none, env.healed,
            false, false, none⟩)
     ∧ (env.entryPresent = true →
        openFile env FileDisposition.kCreate acc idir indir =
          ⟨XStatus.objectNameCollision, some FileAction.kExists, false, none, env.healed,
            false, false, none⟩)
     ∧ (env.entryPresent = false → ∀ disp,
        (disp = FileDisposition.kCreate ∨ disp = FileDisposition.kOpenIf ∨
         disp = FileDisposition.kOverwriteIf ∨ disp = FileDisposition.kSuperscede) →
        (openFile env disp acc idir indir).status = XStatus.success ∧
        (openFile env disp acc idir indir).action = some FileAction.kCreated ∧
        (openFile env disp acc idir indir).createdNew = true ∧
        (openFile env disp acc idir indir).gotFile = true)
     ∧ (env.entryPresent = true → ∀ disp,
        (disp = FileDisposition.kOpen ∨ disp = FileDisposition.kOpenIf) →
        (openFile env disp acc idir indir).status = XStatus.success ∧
        (openFile env disp acc idir indir).action = some FileAction.kOpened ∧
        (openFile env disp acc idir indir).deletedExisting = false ∧
        (openFile env disp acc idir indir).createdNew = false ∧
        (openFile env disp acc idir indir).gotFile = true)
     ∧ (env.entryPresent = true → ∀ disp,
        (disp = FileDisposition.kOverwrite ∨ disp = FileDisposition.kOverwriteIf) →
        (env.deleteSucceeds = true →
          (openFile env disp acc idir indir).status = XStatus.success ∧
          (openFile env disp acc idir indir).action = some FileAction.kOverwritten ∧
          (openFile env disp acc idir indir).deletedExisting = true ∧
          (openFile env disp acc idir indir).createdNew = true) ∧
        (env.deleteSucceeds = false →
          (openFile env disp acc idir indir).status = XStatus.accessDenied))
     ∧ (env.entryPresent = true →
        (env.deleteSucceeds = true →
          (openFile env FileDisposition.kSuperscede acc idir indir).status =
            XStatus.success ∧
          (openFile env FileDisposition.kSuperscede acc idir indir).action =
            some FileAction.kSuperseded ∧
          (openFile env FileDisposition.kSuperscede acc idir indir).deletedExisting = true ∧
          (openFile env FileDisposition.kSuperscede acc idir indir).createdNew = true) ∧
        (env.deleteSucceeds = false →
          (openFile env FileDisposition.kSuperscede acc idir indir).status =
            XStatus.accessDenied))) := by
  refine ⟨?_, ?_, ?_, ?_, ?_, ?_⟩
  · intro hp disp hdisp
    rcases hdisp with h | h <;> subst h <;>
      simp [openFile, hparent, hdir, hp]
  · intro hp
    simp [openFile, hparent, hdir, hp]
  · intro hp disp hdisp
    rcases hdisp with h | h | h | h <;> subst h <;>
      simp [openFile, hparent, hdir, hp, hcre, hopen, finishOpen, XStatus.failed]
  · intro hp disp hdisp
    rcases hdisp with h | h <;> subst h <;>
      simp [openFile, hparent, hdir, hp, hcre, hopen, finishOpen, XStatus.failed]
  · intro hp disp hdisp
    rcases hdisp with h | h <;> subst h <;>
      constructor <;> intro hds <;>
        simp [openFile, hparent, hdir, hp, hcre, hds, hopen, finishOpen, XStatus.failed]
  · intro hp
    constructor <;> intro hds <;>
      simp [openFile, hparent, hdir, hp, hcre, hds, hopen, finishOpen, XStatus.failed]

/-- A cooperative call environment with the entry present (no parent
portion in the path, so no host-path staleness probe fires). -/
def envPresent : OpenFileEnv :=
  ⟨false, false, true, false, false, false, false, false, true, true, XStatus.success⟩

/-- Same environment with the entry absent. -/
def envAbsent : OpenFileEnv :=
  ⟨false, false, false, false, false, false, false, false, true, true, XStatus.success⟩

/-- A plain generic-read access mask. -/
def accRead : FileAccess := ⟨true, false, false, false, false, false⟩

/-- Witness for C1 at concrete inputs: one row per disposition family. -/
theorem openFile_disposition_table_witness :
    openFile envAbsent FileDisposition.kOpen accRead false false =
      ⟨XStatus.noSuchFile, some FileAction.kDoesNotExist, false, none, false, false, false,
        none⟩
    ∧ openFile envPresent FileDisposition.kCreate accRead false false =
      ⟨XStatus.objectNameCollision, some FileAction.kExists, false, none, false, false,
        false, none⟩
    ∧ (openFile envAbsent FileDisposition.kOpenIf accRead false false).action =
        some FileAction.kCreated
    ∧ (openFile envPresent FileDisposition.kOpenIf accRead false false).action =
        some FileAction.kOpened
    ∧ (openFile envPresent FileDisposition.kOverwriteIf accRead false false).action =
        some FileAction.kOverwritten
    ∧ (openFile envPresent FileDisposition.kSuperscede accRead false false).action =
        some FileAction.kSuperseded := by
  have hA := openFile_disposition_table envAbsent accRead false false rfl rfl rfl rfl
  have hP := openFile_disposition_table envPresent accRead false false rfl rfl rfl rfl
  refine ⟨hA.1 rfl _ (Or.inl rfl), hP.2.1 rfl, ?_, ?_, ?_, ?_⟩
  · exact (hA.2.2.1 rfl _ (Or.inr (Or.inl rfl))).2.1
  · exact (hP.2.2.2.1 rfl _ (Or.inr rfl)).2.1
  · exact ((hP.2.2.2.2.1 rfl _ (Or.inr rfl)).1 rfl).2.1
  · exact ((hP.2.2.2.2.2 rfl).1 rfl).2.1

/-- C4: when the requested access (after generic-flag cleanup) wants write
or append data and either the resolved parent or the existing entry is
read-only, `OpenFile` does not fail on that ground: the requested access is
downgraded to `kGenericRead | kFileReadData` and the final `entry->Open`
runs with the downgraded mask, the call returning whatever that open
returns. -/
theorem openFile_readonly_downgrade (env : OpenFileEnv) (disp : FileDisposition)
    (acc : FileAccess) (idir indir : Bool)
    (hparent : (env.hasBasePath && !env.parentResolves) = false)
    (hdir : (env.entryFound && env.entryIsDirectory && indir) = false)
    (hwrite : ((normalizeAccess acc).fileWriteData ||
      (normalizeAccess acc).fileAppendData) = true)
    (hro : ((env.hasBasePath && env.parentReadOnly) ||
      (env.entryPresent && env.entryReadOnly)) = true)
    (hdel : env.deleteSucceeds = true)
    (hcre : env.createSucceeds = true)
    (hpre1 : ¬((disp = FileDisposition.kOpen ∨ disp = FileDisposition.kOverwrite) ∧
      env.entryPresent = false))
    (hpre2 : ¬(disp = FileDisposition.kCreate ∧ env.entryPresent = true)) :
    (openFile env disp acc idir indir).finalAccess = some readOnlyAccess
    ∧ (openFile env disp acc idir indir).status = env.openStatus := by
  cases disp <;> cases hp : env.entryPresent <;>
    simp_all [openFile] <;> (repeat' split) <;>
    simp_all [finishOpen_status, finishOpen_finalAccess]

/-- An environment for the C4 witness: resolved read-only parent, existing
writable entry, cooperating device. -/
def envReadOnlyParent : OpenFileEnv :=
  ⟨true, true, true, false, false, true, true, false, true, true, XStatus.success⟩

/-- A generic-write access mask. -/
def accWrite : FileAccess := ⟨false, true, false, false, false, false⟩

/-- Witness for C4 at concrete inputs. -/
theorem openFile_readonly_downgrade_witness :
    (openFile envReadOnlyParent FileDisposition.kOpenIf accWrite false false).finalAccess =
      some readOnlyAccess
    ∧ (openFile envReadOnlyParent FileDisposition.kOpenIf accWrite false false).status =
      XStatus.success :=
  openFile_readonly_downgrade envReadOnlyParent FileDisposition.kOpenIf accWrite false false
    rfl rfl rfl rfl rfl rfl (by decide) (by decide)

/-- C9: an `OpenFile` call with disposition `Create` that hits the
name-collision failure leaves the namespace untouched: no stale-cache
delete fired (the entry is still present), the existing entry is neither
deleted nor replaced, `CreatePath` is never invoked, and no handle is
opened; `*out_action` reports `kExists`. -/
theorem openFile_create_collision_unchanged (env : OpenFileEnv) (acc : FileAccess)
    (idir indir : Bool)
    (hparent : (env.hasBasePath && !env.parentResolves) = false)
    (hdir : (env.entryFound && env.entryIsDirectory && indir) = false)
    (hpresent : env.entryPresent = true) :
    openFile env FileDisposition.kCreate acc idir indir =
      ⟨XStatus.objectNameCollision, some FileAction.kExists, false, none, false, false,
        false, none⟩
    ∧ env.healed = false := by
  have hheal : env.healed = false := by
    rw [OpenFileEnv.entryPresent] at hpresent
    cases hh : env.healed
    · rfl
    · rw [hh] at hpresent; simp at hpresent
  constructor
  · simp [openFile, hparent, hdir, hpresent, hheal]
  · exact hheal

/-- Witness for C9 at concrete inputs. -/
theorem openFile_create_collision_unchanged_witness :
    openFile envPresent FileDisposition.kCreate accRead false false =
      ⟨XStatus.objectNameCollision, some FileAction.kExists, false, none, false, false,
        false, none⟩ :=
  (openFile_create_collision_unchanged envPresent accRead false false rfl rfl rfl).1

/-- C10: when the looked-up entry is a directory and the `is_non_directory`
hint is set, `OpenFile` returns `FILE_IS_A_DIRECTORY` without writing
`*out_action` — unlike the other failure paths, the caller's action
variable is left unmodified. -/
theorem openFile_is_non_directory_no_action (env : OpenFileEnv)
    (disp : FileDisposition) (acc : FileAccess) (idir : Bool)
    (hparent : (env.hasBasePath && !env.parentResolves) = false)
    (hfound : env.entryFound = true) (hdir : env.entryIsDirectory = true) :
    openFile env disp acc idir true =
      ⟨XStatus.fileIsADirectory, none, false, none, false, false, false, none⟩ := by
  simp [openFile, hparent, hfound, hdir]

/-- An environment whose entry is a directory. -/
def envDirEntry : OpenFileEnv :=
  ⟨false, false, true, true, false, false, false, false, true, true, XStatus.success⟩

/-- Witness for C10 at concrete inputs. -/
theorem openFile_is_non_directory_no_action_witness :
    openFile envDirEntry FileDisposition.kOpen accRead false true =
      ⟨XStatus.fileIsADirectory, none, false, none, false, false, false, none⟩ :=
  openFile_is_non_directory_no_action envDirEntry FileDisposition.kOpen accRead false
    rfl rfl rfl

/-- The fixed 4 MiB copy buffer (`write_buffer_size = 4_MiB`). -/
def writeBufferSize : Nat := 4194304

/-- The synchronous chunked-read loop of `ExtractContentFile`: while bytes
remain, `ReadSync` (external `File` capability, modelled as delivering
`min(buffer, remaining)` bytes per call) fills the buffer, the chunk is
written out, and `progress += bytes_read`.  Returns the final progress
value. -/
def syncCopy (remaining progressAcc : Nat) : Nat :=
  if _h : remaining = 0 then progressAcc
  else
    syncCopy (remaining - min writeBufferSize remaining)
      (progressAcc + min writeBufferSize remaining)
termination_by remaining
decreasing_by
  simp only [writeBufferSize]
  omega

theorem syncCopy_eq : ∀ (r p : Nat), syncCopy r p = p + r := by
  intro r
  induction r using Nat.strong_induction_on with
  | _ r ih =>
    intro p
    by_cases h : r = 0
    · rw [syncCopy, dif_pos h]
      omega
    · rw [syncCopy, dif_neg h]
      rw [ih (r - min writeBufferSize r) (by simp only [writeBufferSize]; omega)]
      simp only [writeBufferSize]
      omega

/-- One node of a device's entry tree as the extraction walker sees it:
its directory flag and children, plus the outcomes of the external calls
made while materializing it (`create_directories` error, `entry->Open`
status, host-side destination `OpenFile` success, `can_map()`, and
`entry->size()`). -/
inductive ExtractEntry where
  | mk (isDir : Bool) (createDirFails : Bool) (openStatus : XStatus) (destOpenOk : Bool)
      (canMap : Bool) (size : Nat) (children : List ExtractEntry)

def ExtractEntry.isDir : ExtractEntry → Bool
  | .mk d _ _ _ _ _ _ => d

def ExtractEntry.createDirFails : ExtractEntry → Bool
  | .mk _ c _ _ _ _ _ => c

def ExtractEntry.openStatus : ExtractEntry → XStatus
  | .mk _ _ o _ _ _ _ => o

def ExtractEntry.destOpenOk : ExtractEntry → Bool
  | .mk _ _ _ d _ _ _ => d

def ExtractEntry.canMap : ExtractEntry → Bool
  | .mk _ _ _ _ m _ _ => m

def ExtractEntry.size : ExtractEntry → Nat
  | .mk _ _ _ _ _ s _ => s

def ExtractEntry.children : ExtractEntry → List ExtractEntry
  | .mk _ _ _ _ _ _ c => c

/-- The `size_t` modulus: mapped sizes and the mapped-copy countdown are
unsigned 64-bit values, so their arithmetic is modulo `2^64`
(18446744073709551616). -/
def sizeTMod : Nat := 18446744073709551616

/-- The memory-mapped copy loop of `ExtractContentFile` (source lines
378-385): `remaining_size` starts at `map->size()` (a `size_t`) and each
iteration writes one fixed 4 MiB chunk and does
`remaining_size -= write_buffer_size` with NO clamping, so when the size is
not an exact multiple of 4 MiB the unsigned subtraction wraps and the loop
never reaches zero (and the writes read past the view).  The writes
themselves go to external host state; only termination is observable here.
Fuel bounds the iterations; `none` = the loop is still running. -/
def mappedCopyLoop : Nat → Nat → Option Unit
  | 0, _ => none
  | fuel + 1, remaining =>
    if remaining = 0 then some ()
    else mappedCopyLoop fuel ((remaining + (sizeTMod - writeBufferSize)) % sizeTMod)

/-- Model of `VirtualFileSystem::ExtractContentFile(entry, base_path,
progress, extract_to_root)`, returning the status the source returns and
the updated `progress` reference, or `none` when the source would still be
looping.  Directories: `create_directories`, a failing error code is
returned, progress untouched.  Files: a failing `entry->Open` status is
returned as-is; a failed destination open returns a non-success code
(`return 1`); a memory-mapped copy runs `mappedCopyLoop` — which never
touches `progress` and only terminates when the wrapped countdown reaches
zero — then returns 0; the fallback synchronous loop adds every
`bytes_read` to `progress`. -/
def extractContentFile (fuel : Nat) (e : ExtractEntry) (progressAcc : Nat) :
    Option (XStatus × Nat) :=
  if e.isDir then
    some (if e.createDirFails then XStatus.deviceError else XStatus.success, progressAcc)
  else if e.openStatus ≠ XStatus.success then
    some (e.openStatus, progressAcc)
  else if !e.destOpenOk then
    some (XStatus.deviceError, progressAcc)
  else if e.canMap then
    match mappedCopyLoop fuel (e.size % sizeTMod) with
    | none => none
    | some _ => some (XStatus.success, progressAcc)
  else
    some (XStatus.success, syncCopy e.size progressAcc)

/-- Model of the breadth-first queue loop of
`VirtualFileSystem::ExtractContentFiles`: pop an entry, enqueue its
children, call `ExtractContentFile` — whose returned status the source
DISCARDS — and continue; an empty queue returns `X_STATUS_SUCCESS`.  Fuel
bounds the iterations of both the walk and the per-entry copy loops
(`none` = the source would still be running, either in the walk or stuck
inside one entry's mapped-copy loop). -/
def extractContentFilesLoop : Nat → List ExtractEntry → Nat → Option (XStatus × Nat)
  | 0, _, _ => none
  | _ + 1, [], progressAcc => some (XStatus.success, progressAcc)
  | fuel + 1, e :: rest, progressAcc =>
    match extractContentFile fuel e progressAcc with
    | none => none
    | some r => extractContentFilesLoop fuel (rest ++ e.children) r.2

/-- Model of `VirtualFileSystem::ExtractContentFiles(device, base_path,
progress)`: run the queue loop from the device's root entry
(`device->ResolvePath("/")`, external). -/
def extractContentFiles (fuel : Nat) (root : ExtractEntry) (progressAcc : Nat) :
    Option (XStatus × Nat) :=
  extractContentFilesLoop fuel [root] progressAcc

/-- A file entry whose `entry->Open` fails. -/
def c5FailFile : ExtractEntry :=
  .mk false false XStatus.deviceError true false 5 []

/-- A file entry whose synchronous copy succeeds (3 bytes). -/
def c5OkFile : ExtractEntry :=
  .mk false false XStatus.success true false 3 []

/-- A root directory holding the failing file and then the good file. -/
def c5Root : ExtractEntry :=
  .mk true false XStatus.success true false 0 [c5FailFile, c5OkFile]

/-- C5 counterexample: a walk over a tree whose first file fails to copy
still returns `X_STATUS_SUCCESS` — the per-entry status (here the failing
open status of `c5FailFile`) is discarded, not propagated through the
return value; the walk does continue (the later 3-byte file was copied,
as the progress value shows). -/
theorem extractContentFiles_discards_status_cex :
    extractContentFile 1 c5FailFile 0 = some (XStatus.deviceError, 0)
    ∧ extractContentFiles 4 c5Root 0 = some (XStatus.success, 3) := by
  constructor
  · rfl
  · calc extractContentFiles 4 c5Root 0 = some (XStatus.success, syncCopy 3 0) := rfl
      _ = some (XStatus.success, 3) := by rw [syncCopy_eq]

/-- C5 amended: a single entry's copy failure is non-fatal to the walk —
whenever `ExtractContentFile` returns at all, the loop continues to the
next queued entry whatever status it returned — but the per-entry status is
discarded, not propagated: whenever the walk terminates its returned status
is unconditionally `X_STATUS_SUCCESS`. -/
theorem extractContentFiles_nonfatal :
    (∀ (fuel : Nat) (e : ExtractEntry) (rest : List ExtractEntry) (p : Nat)
       (r : XStatus × Nat),
       extractContentFile fuel e p = some r →
       extractContentFilesLoop (fuel + 1) (e :: rest) p =
         extractContentFilesLoop fuel (rest ++ e.children) r.2)
    ∧ (∀ (fuel : Nat) (queue : List ExtractEntry) (p : Nat) (r : XStatus × Nat),
       extractContentFilesLoop fuel queue p = some r → r.1 = XStatus.success) := by
  constructor
  · intro fuel e rest p r hr
    simp only [extractContentFilesLoop, hr]
  · intro fuel
    induction fuel with
    | zero =>
      intro queue p r h
      simp [extractContentFilesLoop] at h
    | succ n ih =>
      intro queue p r h
      cases queue with
      | nil =>
        simp only [extractContentFilesLoop, Option.some.injEq] at h
        rw [← h]
      | cons e rest =>
        simp only [extractContentFilesLoop] at h
        cases hx : extractContentFile n e p with
        | none => rw [hx] at h; simp at h
        | some r0 => rw [hx] at h; exact ih _ _ r h

/-- Witness for C5's amended theorem at concrete inputs. -/
theorem extractContentFiles_nonfatal_witness :
    extractContentFilesLoop 1 [c5FailFile] 0 =
      extractContentFilesLoop 0 ([] ++ c5FailFile.children) 0
    ∧ (XStatus.success, (5 : Nat)).1 = XStatus.success := by
  constructor
  · exact extractContentFiles_nonfatal.1 0 c5FailFile [] 0 (XStatus.deviceError, 0) rfl
  · exact extractContentFiles_nonfatal.2 1 [] 5 (XStatus.success, 5) rfl

/-- A 4 MiB file that the device can memory-map: the one family of sizes
(exact multiples of the 4 MiB chunk) whose mapped-copy countdown reaches
zero, so the source actually returns on this input. -/
def c6Mapped4MiB : ExtractEntry :=
  .mk false false XStatus.success true true 4194304 []

/-- C6 counterexample: materializing a 4 MiB memory-mapped file terminates
and succeeds — two loop iterations: 4194304 is not zero, one chunk is
written, and the countdown hits exactly zero — yet adds NOTHING to the
progress counter, so the counter does not accumulate the bytes copied
"regardless of whether the file is copied through a memory-mapped view". -/
theorem extractContentFile_mapped_progress_cex :
    c6Mapped4MiB.size = 4194304
    ∧ extractContentFile 2 c6Mapped4MiB 0 = some (XStatus.success, 0) := by
  constructor
  · rfl
  · rfl

/-- C6 amended: the progress counter accumulates bytes only for files
copied through the synchronous chunked-read fallback (adding exactly the
entry's size); a file copied through a memory-mapped view contributes
nothing whenever its copy loop terminates at all, and a directory entry
contributes zero bytes. -/
theorem extractContentFile_progress (fuel : Nat) (e : ExtractEntry) (p : Nat) :
    (e.isDir = true → ∀ r, extractContentFile fuel e p = some r → r.2 = p)
    ∧ (e.isDir = false → e.openStatus = XStatus.success → e.destOpenOk = true →
        e.canMap = true → ∀ r, extractContentFile fuel e p = some r → r.2 = p)
    ∧ (e.isDir = false → e.openStatus = XStatus.success → e.destOpenOk = true →
        e.canMap = false →
        extractContentFile fuel e p = some (XStatus.success, p + e.size)) := by
  obtain ⟨d, cdf, os, dok, cm, sz, ch⟩ := e
  refine ⟨?_, ?_, ?_⟩
  · intro h1 r hr
    simp only [ExtractEntry.isDir] at h1
    subst h1
    rw [show extractContentFile fuel (ExtractEntry.mk true cdf os dok cm sz ch) p =
      some ((if cdf then XStatus.deviceError else XStatus.success), p) from rfl] at hr
    injection hr with hr'
    rw [← hr']
  · intro h1 h2 h3 h4 r hr
    simp only [ExtractEntry.isDir] at h1
    simp only [ExtractEntry.openStatus] at h2
    simp only [ExtractEntry.destOpenOk] at h3
    simp only [ExtractEntry.canMap] at h4
    subst h1; subst h2; subst h3; subst h4
    rw [show extractContentFile fuel
        (ExtractEntry.mk false cdf XStatus.success true true sz ch) p =
      (match mappedCopyLoop fuel (sz % sizeTMod) with
       | none => none
       | some _ => some (XStatus.success, p)) from rfl] at hr
    cases hm : mappedCopyLoop fuel (sz % sizeTMod) with
    | none =>
      rw [hm] at hr
      exact Option.noConfusion hr
    | some u =>
      rw [hm] at hr
      have h' : some (XStatus.success, p) = some r := hr
      injection h' with h''
      rw [← h'']
  · intro h1 h2 h3 h4
    simp_all [extractContentFile, ExtractEntry.isDir, ExtractEntry.openStatus,
      ExtractEntry.destOpenOk, ExtractEntry.canMap, ExtractEntry.size, syncCopy_eq]

/-- An empty directory entry for the C6 witness. -/
def c6Dir : ExtractEntry :=
  .mk true false XStatus.success true false 0 []

/-- A 3-byte file copied through the synchronous fallback. -/
def c6SyncFile : ExtractEntry :=
  .mk false false XStatus.success true false 3 []

/-- Witness for C6's amended theorem at concrete inputs: the directory and
the terminating mapped file leave the counter alone, the sync-copied file
adds its size. -/
theorem extractContentFile_progress_witness :
    ((XStatus.success, (7 : Nat)).2 = 7)
    ∧ ((XStatus.success, (9 : Nat)).2 = 9)
    ∧ extractContentFile 1 c6SyncFile 7 = some (XStatus.success, 7 + 3) := by
  refine ⟨?_, ?_, ?_⟩
  · exact (extractContentFile_progress 1 c6Dir 7).1 rfl (XStatus.success, 7) rfl
  · exact (extractContentFile_progress 2 c6Mapped4MiB 9).2.1 rfl rfl rfl rfl
      (XStatus.success, 9) rfl
  · exact (extractContentFile_progress 1 c6SyncFile 7).2.2 rfl rfl rfl rfl

end XeniaVfs
